import Mathlib

/-!
Verification of the tour-list application's core against its source.

The developments below are shallow embeddings of:
  - src/lib/utils/coordinate.ts      (coordinate normalizer)
  - src/lib/api/tour-api.ts          (retry policy of the remote-call layer)
  - src/components/tour-page-content.tsx
      (pet-info enrichment batch, pet filter, paging controller)

Numbers are modelled as rationals; asynchronous interleavings are modelled as
an explicit event-step machine over the controller's state.
-/

namespace TourApp

/-! ## Coordinate normalizer (src/lib/utils/coordinate.ts) -/

/-- Numeric value of a list of decimal digit characters. -/
def digitsVal (ds : List Char) : Nat :=
  ds.foldl (fun a c => 10 * a + (c.toNat - 48)) 0

/-- The discrete (character-level) result of parsing a numeric literal head:
sign, integral digits, fractional digits, exponent sign and exponent digits. -/
structure ParsedNum where
  signNeg : Bool
  intDigits : List Char
  fracDigits : List Char
  expNeg : Bool
  expDigits : List Char
deriving DecidableEq, Repr

/-- Character-level front end of JavaScript parseFloat: skip leading
whitespace, optional sign, decimal digits with an optional fractional part and
an optional exponent; the longest valid numeric head is parsed and trailing
characters are ignored.  none models NaN (no parseable number). -/
def parseFloatHead (s : String) : Option ParsedNum :=
  let cs0 : List Char := s.toList.dropWhile (fun c => c.isWhitespace)
  let signNeg : Bool := match cs0 with
    | '-' :: _ => true
    | _ => false
  let cs : List Char := match cs0 with
    | '-' :: rest => rest
    | '+' :: rest => rest
    | _ => cs0
  let intDigits : List Char := cs.takeWhile (fun c => c.isDigit)
  let cs1 : List Char := cs.dropWhile (fun c => c.isDigit)
  let fracDigits : List Char := match cs1 with
    | '.' :: rest => rest.takeWhile (fun c => c.isDigit)
    | _ => []
  let cs2 : List Char := match cs1 with
    | '.' :: rest => rest.dropWhile (fun c => c.isDigit)
    | _ => cs1
  if intDigits.isEmpty && fracDigits.isEmpty then none
  else
    match cs2 with
    | c :: rest =>
      if c = 'e' ∨ c = 'E' then
        let eneg : Bool := match rest with
          | '-' :: _ => true
          | _ => false
        let rest2 : List Char := match rest with
          | '-' :: r => r
          | '+' :: r => r
          | _ => rest
        let eds : List Char := rest2.takeWhile (fun d => d.isDigit)
        some ⟨signNeg, intDigits, fracDigits, eneg, eds⟩
      else some ⟨signNeg, intDigits, fracDigits, false, []⟩
    | [] => some ⟨signNeg, intDigits, fracDigits, false, []⟩

/-- Numeric value of a parsed literal: mantissa (integral plus fractional
part) scaled by the signed power-of-ten exponent (an absent or malformed
exponent has no digits and so contributes the factor one). -/
def ratOfParsed (p : ParsedNum) : ℚ :=
  let mantissa : ℚ :=
    (digitsVal p.intDigits : ℚ) +
      (digitsVal p.fracDigits : ℚ) / ((10 : ℚ) ^ p.fracDigits.length)
  let expVal : ℤ :=
    if p.expNeg then -(digitsVal p.expDigits : ℤ) else (digitsVal p.expDigits : ℤ)
  let v : ℚ := mantissa * (10 : ℚ) ^ expVal
  if p.signNeg then -v else v

/-- Models JavaScript parseFloat as used by the source, with numbers as
rationals (the non-finite literals parseFloat accepts are mapped to none,
which yields the same converter output on every input). -/
def jsParseFloat (s : String) : Option ℚ :=
  (parseFloatHead s).map ratOfParsed

/-- The final range validation of convertKATECToWGS84 (Korea bounding box:
longitude 124-132, latitude 33-43); out-of-box pairs are rejected. -/
def validateRange (lng lat : ℚ) : Option (ℚ × ℚ) :=
  if lng < 124 ∨ lng > 132 ∨ lat < 33 ∨ lat > 43 then none else some (lng, lat)

/-- Shallow embedding of convertKATECToWGS84: reject empty or literal-zero
strings, parse both values, pass already-in-box pairs through, divide
large-integer pairs (both values above 1,000,000) by 10,000,000, reject any
other magnitude pattern, and re-validate the result against the bounding
box.  The result pair is (lng, lat). -/
def convertKATECToWGS84 (mapx mapy : String) : Option (ℚ × ℚ) :=
  if mapx = "" ∨ mapy = "" ∨ mapx = "0" ∨ mapy = "0" then none
  else
    match jsParseFloat mapx, jsParseFloat mapy with
    | some x, some y =>
      if 124 ≤ x ∧ x ≤ 132 ∧ 33 ≤ y ∧ y ≤ 43 then validateRange x y
      else if 1000000 < x ∧ 1000000 < y then validateRange (x / 10000000) (y / 10000000)
      else none
    | _, _ => none

lemma validateRange_eq (lng lat : ℚ) :
    validateRange lng lat =
      (if 124 ≤ lng ∧ lng ≤ 132 ∧ 33 ≤ lat ∧ lat ≤ 43 then some (lng, lat) else none) := by
  unfold validateRange
  by_cases h1 : 124 ≤ lng
  · by_cases h2 : lng ≤ 132
    · by_cases h3 : 33 ≤ lat
      · by_cases h4 : lat ≤ 43
        · rw [if_neg, if_pos ⟨h1, h2, h3, h4⟩]
          push_neg
          exact ⟨h1, h2, h3, h4⟩
        · rw [if_pos, if_neg]
          · simp [h4]
          · exact Or.inr (Or.inr (Or.inr (lt_of_not_le h4)))
      · rw [if_pos, if_neg]
        · simp [h3]
        · exact Or.inr (Or.inr (Or.inl (lt_of_not_le h3)))
    · rw [if_pos, if_neg]
      · simp [h2]
      · exact Or.inr (Or.inl (lt_of_not_le h2))
  · rw [if_pos, if_neg]
    · simp [h1]
    · exact Or.inl (lt_of_not_le h1)

lemma convertKATECToWGS84_parsed (mapx mapy : String) (x y : ℚ)
    (hxe : mapx ≠ "") (hye : mapy ≠ "") (hx0 : mapx ≠ "0") (hy0 : mapy ≠ "0")
    (hx : jsParseFloat mapx = some x) (hy : jsParseFloat mapy = some y) :
    convertKATECToWGS84 mapx mapy =
      (if 124 ≤ x ∧ x ≤ 132 ∧ 33 ≤ y ∧ y ≤ 43 then validateRange x y
       else if 1000000 < x ∧ 1000000 < y then
         validateRange (x / 10000000) (y / 10000000)
       else none) := by
  unfold convertKATECToWGS84
  rw [if_neg (by simp [hxe, hye, hx0, hy0]), hx, hy]

lemma jsParseFloat_empty : jsParseFloat "" = none := by
  have h : parseFloatHead "" = none := by decide
  simp [jsParseFloat, h]

lemma jsParseFloat_zero : jsParseFloat "0" = some 0 := by
  have h : parseFloatHead "0" = some ⟨false, ['0'], [], false, []⟩ := by decide
  have hd : digitsVal ['0'] = 0 := by decide
  have hd0 : digitsVal ([] : List Char) = 0 := by decide
  simp [jsParseFloat, h, ratOfParsed, hd, hd0]

lemma jsParseFloat_sampleLng : jsParseFloat "1269780000" = some 1269780000 := by
  have hpx : parseFloatHead "1269780000" =
      some ⟨false, ['1','2','6','9','7','8','0','0','0','0'], [], false, []⟩ := by decide
  have hdx : digitsVal ['1','2','6','9','7','8','0','0','0','0'] = 1269780000 := by decide
  have hd0 : digitsVal ([] : List Char) = 0 := by decide
  simp [jsParseFloat, hpx, ratOfParsed, hdx, hd0]

lemma jsParseFloat_sampleLat : jsParseFloat "375665000" = some 375665000 := by
  have hpy : parseFloatHead "375665000" =
      some ⟨false, ['3','7','5','6','6','5','0','0','0'], [], false, []⟩ := by decide
  have hdy : digitsVal ['3','7','5','6','6','5','0','0','0'] = 375665000 := by decide
  have hd0 : digitsVal ([] : List Char) = 0 := by decide
  simp [jsParseFloat, hpy, ratOfParsed, hdy, hd0]

/-- C2: for every pair of input strings parsing to numbers x, y that both
exceed 1,000,000 in magnitude, convertKATECToWGS84 returns the pair divided by
10,000,000 exactly when the divided pair lies in the longitude 124-132 /
latitude 33-43 box and none otherwise; and the concrete input
("1269780000","375665000") converts to (126.978, 37.5665). -/
theorem C2_fixed_point_division (mapx mapy : String) (x y : ℚ)
    (hx : jsParseFloat mapx = some x) (hy : jsParseFloat mapy = some y)
    (hmx : 1000000 < |x|) (hmy : 1000000 < |y|) :
    convertKATECToWGS84 mapx mapy =
      (if 124 ≤ x / 10000000 ∧ x / 10000000 ≤ 132 ∧
          33 ≤ y / 10000000 ∧ y / 10000000 ≤ 43
       then some (x / 10000000, y / 10000000) else none) ∧
    convertKATECToWGS84 "1269780000" "375665000" =
      some (126978 / 1000, 375665 / 10000) := by
  constructor
  · have hxe : mapx ≠ "" := by
      intro h
      rw [h] at hx
      exact Option.noConfusion (jsParseFloat_empty ▸ hx)
    have hye : mapy ≠ "" := by
      intro h
      rw [h] at hy
      exact Option.noConfusion (jsParseFloat_empty ▸ hy)
    have hx0 : mapx ≠ "0" := by
      intro h
      rw [h, jsParseFloat_zero] at hx
      have hx' : x = 0 := by
        injection hx with h0
        exact h0.symm
      rw [hx'] at hmx
      norm_num at hmx
    have hy0 : mapy ≠ "0" := by
      intro h
      rw [h, jsParseFloat_zero] at hy
      have hy' : y = 0 := by
        injection hy with h0
        exact h0.symm
      rw [hy'] at hmy
      norm_num at hmy
    rw [convertKATECToWGS84_parsed mapx mapy x y hxe hye hx0 hy0 hx hy]
    have hcx : 1000000 < x ∨ 1000000 < -x := lt_abs.mp hmx
    have hcy : 1000000 < y ∨ 1000000 < -y := lt_abs.mp hmy
    have hnot1 : ¬(124 ≤ x ∧ x ≤ 132 ∧ 33 ≤ y ∧ y ≤ 43) := by
      rcases hcx with h | h
      · intro hc
        linarith [hc.2.1]
      · intro hc
        linarith [hc.1]
    rw [if_neg hnot1]
    rcases hcx with hxp | hxn
    · rcases hcy with hyp | hyn
      · rw [if_pos ⟨hxp, hyp⟩, validateRange_eq]
      · rw [if_neg (fun hc => by linarith [hc.2]),
            if_neg (fun hc => by linarith [hc.2.2.1])]
    · rw [if_neg (fun hc => by linarith [hc.1]),
          if_neg (fun hc => by linarith [hc.1])]
  · rw [convertKATECToWGS84_parsed _ _ _ _ (by simp) (by simp) (by simp) (by simp)
        jsParseFloat_sampleLng jsParseFloat_sampleLat]
    rw [if_neg (by norm_num),
        if_pos (by norm_num : (1000000:ℚ) < 1269780000 ∧ (1000000:ℚ) < 375665000)]
    rw [validateRange_eq, if_pos (by norm_num)]
    norm_num

/-- Witness for C2 at the concrete input ("1269780000","375665000"). -/
theorem C2_fixed_point_division_witness :
    jsParseFloat "1269780000" = some 1269780000 ∧
    jsParseFloat "375665000" = some 375665000 ∧
    (1000000 : ℚ) < |(1269780000 : ℚ)| ∧ (1000000 : ℚ) < |(375665000 : ℚ)| ∧
    convertKATECToWGS84 "1269780000" "375665000" =
      some (126978 / 1000, 375665 / 10000) :=
  ⟨jsParseFloat_sampleLng, jsParseFloat_sampleLat, by norm_num, by norm_num,
    (C2_fixed_point_division "1269780000" "375665000" 1269780000 375665000
      jsParseFloat_sampleLng jsParseFloat_sampleLat
      (by norm_num) (by norm_num)).2⟩

/-- C8: convertKATECToWGS84 is a total function returning none on empty or
literal-zero strings and on non-numeric strings, and any pair it returns lies
inside the longitude 124-132 / latitude 33-43 box (hence out-of-range
conversions are answered with none as well).  Totality (never throwing) is
inherent in the embedding returning an Option value for every pair of input
strings. -/
theorem C8_invalid_inputs_give_none (mapx mapy : String) :
    ((mapx = "" ∨ mapy = "" ∨ mapx = "0" ∨ mapy = "0") →
      convertKATECToWGS84 mapx mapy = none) ∧
    ((jsParseFloat mapx = none ∨ jsParseFloat mapy = none) →
      convertKATECToWGS84 mapx mapy = none) ∧
    (∀ lng lat, convertKATECToWGS84 mapx mapy = some (lng, lat) →
      124 ≤ lng ∧ lng ≤ 132 ∧ 33 ≤ lat ∧ lat ≤ 43) := by
  refine ⟨fun hg => ?_, fun hp => ?_, fun lng lat h => ?_⟩
  · unfold convertKATECToWGS84
    rw [if_pos hg]
  · unfold convertKATECToWGS84
    by_cases hg : (mapx = "" ∨ mapy = "" ∨ mapx = "0" ∨ mapy = "0")
    · rw [if_pos hg]
    · rw [if_neg hg]
      cases hpx : jsParseFloat mapx with
      | none =>
        cases hpy : jsParseFloat mapy with
        | none => rfl
        | some y => rfl
      | some x =>
        cases hpy : jsParseFloat mapy with
        | none => rfl
        | some y =>
          rcases hp with hp | hp
          · rw [hpx] at hp
            exact Option.noConfusion hp
          · rw [hpy] at hp
            exact Option.noConfusion hp
  · unfold convertKATECToWGS84 at h
    by_cases hg : (mapx = "" ∨ mapy = "" ∨ mapx = "0" ∨ mapy = "0")
    · rw [if_pos hg] at h
      exact Option.noConfusion h
    · rw [if_neg hg] at h
      cases hpx : jsParseFloat mapx with
      | none =>
        rw [hpx] at h
        cases hpy : jsParseFloat mapy with
        | none => exact Option.noConfusion h
        | some y => exact Option.noConfusion h
      | some x =>
        cases hpy : jsParseFloat mapy with
        | none =>
          rw [hpx, hpy] at h
          exact Option.noConfusion h
        | some y =>
          rw [hpx, hpy] at h
          have h' : (if 124 ≤ x ∧ x ≤ 132 ∧ 33 ≤ y ∧ y ≤ 43 then validateRange x y
              else if 1000000 < x ∧ 1000000 < y then
                validateRange (x / 10000000) (y / 10000000)
              else none) = some (lng, lat) := h
          rw [validateRange_eq, validateRange_eq] at h'
          split_ifs at h' with h1 h2 h3
          · rw [Option.some.injEq, Prod.mk.injEq] at h'
            obtain ⟨rfl, rfl⟩ := h'
            exact h1
          · rw [Option.some.injEq, Prod.mk.injEq] at h'
            obtain ⟨rfl, rfl⟩ := h'
            exact h3

/-- Witness for C8 at concrete invalid inputs. -/
theorem C8_invalid_inputs_witness :
    convertKATECToWGS84 "" "126.97" = none ∧
    convertKATECToWGS84 "abc" "37.5" = none := by
  constructor
  · exact (C8_invalid_inputs_give_none "" "126.97").1 (Or.inl rfl)
  · have hp : parseFloatHead "abc" = none := by decide
    have h : jsParseFloat "abc" = none := by simp [jsParseFloat, hp]
    exact (C8_invalid_inputs_give_none "abc" "37.5").2.1 (Or.inl h)

/-! ## Retry policy of the remote-call layer (src/lib/api/tour-api.ts) -/

/-- The error taxonomy of the API client: TourApiKeyError,
TourApiRateLimitError, plain TourApiError (with its optional HTTP statusCode),
TourApiNetworkError (which never carries a statusCode), and any other thrown
value. -/
inductive TourError where
  | keyError
  | rateLimitError
  | apiError (statusCode : Option Nat)
  | networkError
  | otherError
deriving DecidableEq, Repr

/-- MAX_RETRIES of tour-api.ts. -/
def MAX_RETRIES : Nat := 3

/-- RETRY_DELAYS of tour-api.ts (milliseconds, exponential backoff). -/
def RETRY_DELAYS : List Nat := [1000, 2000, 4000]

/-- The first guard of retryApiCall's catch block: key errors, rate-limit
errors, and TourApiError values whose statusCode is truthy and below 500 are
rethrown without any retry. -/
def shouldNotRetry : TourError → Bool
  | .keyError => true
  | .rateLimitError => true
  | .apiError (some c) => decide (c ≠ 0) && decide (c < 500)
  | .apiError none => false
  | .networkError => false
  | .otherError => false

/-- Shallow embedding of retryApiCall.  The api call fn is modelled by its
outcome on each attempt (attempt n is the invocation made with
retryCount = n); the second component records the backoff delays awaited, in
order.  The fallback for the delay lookup models
RETRY_DELAYS[retryCount] || RETRY_DELAYS[RETRY_DELAYS.length - 1]. -/
def retryApiCall {α : Type} (fn : Nat → Except TourError α) (retryCount : Nat) :
    Except TourError α × List Nat :=
  match fn retryCount with
  | .ok a => (.ok a, [])
  | .error e =>
    if shouldNotRetry e then (.error e, [])
    else if h : MAX_RETRIES ≤ retryCount then (.error e, [])
    else ((retryApiCall fn (retryCount + 1)).1,
          RETRY_DELAYS.getD retryCount (RETRY_DELAYS.getLastD 0) ::
            (retryApiCall fn (retryCount + 1)).2)
termination_by MAX_RETRIES - retryCount
decreasing_by omega

lemma retryApiCall_unfold {α : Type} (fn : Nat → Except TourError α) (rc : Nat) :
    retryApiCall fn rc =
      match fn rc with
      | .ok a => (.ok a, [])
      | .error e =>
        if shouldNotRetry e then (.error e, [])
        else if _h : MAX_RETRIES ≤ rc then (.error e, [])
        else ((retryApiCall fn (rc + 1)).1,
              RETRY_DELAYS.getD rc (RETRY_DELAYS.getLastD 0) ::
                (retryApiCall fn (rc + 1)).2) := by
  rw [retryApiCall]

lemma retry_at_max {α : Type} (fn : Nat → Except TourError α) :
    (retryApiCall fn 3).2 = [] := by
  rw [retryApiCall_unfold]
  cases hf : fn 3 with
  | ok a => rfl
  | error e =>
    by_cases hs : shouldNotRetry e = true
    · simp [hs]
    · simp [hs, MAX_RETRIES]

lemma retry_level {α : Type} (fn : Nat → Except TourError α) (rc : Nat)
    (hrc : rc < 3) :
    (retryApiCall fn rc).2 = [] ∨
    (retryApiCall fn rc).2 =
      RETRY_DELAYS.getD rc (RETRY_DELAYS.getLastD 0) ::
        (retryApiCall fn (rc + 1)).2 := by
  rw [retryApiCall_unfold]
  cases hf : fn rc with
  | ok a => exact Or.inl rfl
  | error e =>
    by_cases hs : shouldNotRetry e = true
    · simp [hs]
    · have hm : ¬(MAX_RETRIES ≤ rc) := by
        simp [MAX_RETRIES]
        omega
      simp [hs, hm]

lemma retry_delays_cases {α : Type} (fn : Nat → Except TourError α) :
    (retryApiCall fn 0).2 = [] ∨ (retryApiCall fn 0).2 = [1000] ∨
    (retryApiCall fn 0).2 = [1000, 2000] ∨
    (retryApiCall fn 0).2 = [1000, 2000, 4000] := by
  have hg0 : RETRY_DELAYS.getD 0 (RETRY_DELAYS.getLastD 0) = 1000 := by decide
  have hg1 : RETRY_DELAYS.getD 1 (RETRY_DELAYS.getLastD 0) = 2000 := by decide
  have hg2 : RETRY_DELAYS.getD 2 (RETRY_DELAYS.getLastD 0) = 4000 := by decide
  have h3 := retry_at_max fn
  rcases retry_level fn 0 (by omega) with h0 | h0
  · exact Or.inl h0
  · rcases retry_level fn 1 (by omega) with h1 | h1
    · rw [h0, h1, hg0]
      exact Or.inr (Or.inl rfl)
    · rcases retry_level fn 2 (by omega) with h2 | h2
      · rw [h0, h1, h2, hg0, hg1]
        exact Or.inr (Or.inr (Or.inl rfl))
      · rw [h0, h1, h2, h3, hg0, hg1, hg2]
        exact Or.inr (Or.inr (Or.inr rfl))

lemma retry_delay_implies_retryable {α : Type} (fn : Nat → Except TourError α) :
    ∀ (n rc : Nat), n < (retryApiCall fn rc).2.length →
      ∃ e, fn (rc + n) = .error e ∧ shouldNotRetry e = false := by
  intro n
  induction n with
  | zero =>
    intro rc h
    rw [retryApiCall_unfold] at h
    cases hf : fn rc with
    | ok a =>
      rw [hf] at h
      simp at h
    | error e =>
      rw [hf] at h
      by_cases hs : shouldNotRetry e = true
      · simp [hs] at h
      · refine ⟨e, by rw [Nat.add_zero]; exact hf, by simpa using hs⟩
  | succ n ih =>
    intro rc h
    rw [retryApiCall_unfold] at h
    cases hf : fn rc with
    | ok a =>
      rw [hf] at h
      simp at h
    | error e =>
      rw [hf] at h
      by_cases hs : shouldNotRetry e = true
      · simp [hs] at h
      · by_cases hm : MAX_RETRIES ≤ rc
        · simp [hs, hm] at h
        · simp only [hs, hm, if_false, dif_neg, if_neg, Bool.false_eq_true,
            dite_eq_ite] at h
          have h' : n < (retryApiCall fn (rc + 1)).2.length := by
            simpa using Nat.lt_of_succ_lt_succ (by simpa using h)
          obtain ⟨e', he', hs'⟩ := ih (rc + 1) h'
          exact ⟨e', by rw [show rc + (n + 1) = rc + 1 + n by omega]; exact he', hs'⟩

/-- C9: retryApiCall rethrows immediately (no delay, no retry) on a key
error, a rate-limit error, or a TourApiError whose HTTP status code is below
500 — indeed every backoff delay that occurs was provoked by a retryable
failure — while every other failure is retried at most 3 additional times,
with the awaited backoff delays always an initial run of 1000, 2000, 4000 ms,
and a persistent retryable failure exhausts exactly those three delays before
the final error propagates. -/
theorem C9_retry_policy {α : Type} (fn : Nat → Except TourError α) :
    (∀ e, fn 0 = .error e → shouldNotRetry e = true →
      retryApiCall fn 0 = (.error e, [])) ∧
    (∀ n, n < (retryApiCall fn 0).2.length →
      ∃ e, fn n = .error e ∧ shouldNotRetry e = false) ∧
    (retryApiCall fn 0).2.length ≤ 3 ∧
    (∃ t, RETRY_DELAYS = (retryApiCall fn 0).2 ++ t) ∧
    ((∀ n, n ≤ 3 → ∃ e, fn n = .error e ∧ shouldNotRetry e = false) →
      (retryApiCall fn 0).2 = [1000, 2000, 4000] ∧
      ∃ e, fn 3 = .error e ∧ (retryApiCall fn 0).1 = .error e) := by
  refine ⟨fun e hf hs => ?_,
    fun n h => by simpa using retry_delay_implies_retryable fn n 0 (by simpa using h),
    ?_, ?_, fun hall => ?_⟩
  · rw [retryApiCall_unfold, hf]
    simp [hs]
  · rcases retry_delays_cases fn with h | h | h | h <;> rw [h] <;> decide
  · rcases retry_delays_cases fn with h | h | h | h <;> rw [h]
    · exact ⟨[1000, 2000, 4000], rfl⟩
    · exact ⟨[2000, 4000], rfl⟩
    · exact ⟨[4000], rfl⟩
    · exact ⟨[], by decide⟩
  · obtain ⟨e0, hf0, hs0⟩ := hall 0 (by omega)
    obtain ⟨e1, hf1, hs1⟩ := hall 1 (by omega)
    obtain ⟨e2, hf2, hs2⟩ := hall 2 (by omega)
    obtain ⟨e3, hf3, hs3⟩ := hall 3 (by omega)
    have hg0 : RETRY_DELAYS.getD 0 (RETRY_DELAYS.getLastD 0) = 1000 := by decide
    have hg1 : RETRY_DELAYS.getD 1 (RETRY_DELAYS.getLastD 0) = 2000 := by decide
    have hg2 : RETRY_DELAYS.getD 2 (RETRY_DELAYS.getLastD 0) = 4000 := by decide
    have h3 : retryApiCall fn 3 = (.error e3, []) := by
      rw [retryApiCall_unfold, hf3]
      simp [hs3, MAX_RETRIES]
    have h2 : retryApiCall fn 2 = (.error e3, [4000]) := by
      rw [retryApiCall_unfold, hf2]
      simp [hs2, MAX_RETRIES, h3, RETRY_DELAYS, List.getD]
    have h1 : retryApiCall fn 1 = (.error e3, [2000, 4000]) := by
      rw [retryApiCall_unfold, hf1]
      simp [hs1, MAX_RETRIES, h2, RETRY_DELAYS, List.getD]
    have h0 : retryApiCall fn 0 = (.error e3, [1000, 2000, 4000]) := by
      rw [retryApiCall_unfold, hf0]
      simp [hs0, MAX_RETRIES, h1, RETRY_DELAYS, List.getD]
    exact ⟨by rw [h0], e3, hf3, by rw [h0]⟩

/-- Witness for C9: a client error with status 404 is rethrown with no retry,
and a persistently failing network call is retried with delays 1s, 2s, 4s. -/
theorem C9_retry_policy_witness :
    retryApiCall (fun _ => (.error TourError.keyError : Except TourError Unit)) 0 =
      (.error TourError.keyError, []) ∧
    (retryApiCall (fun _ => (.error TourError.networkError : Except TourError Unit)) 0).2 =
      [1000, 2000, 4000] := by
  constructor
  · exact (C9_retry_policy (fun _ => (.error TourError.keyError : Except TourError Unit))).1
      TourError.keyError rfl rfl
  · exact ((C9_retry_policy (fun _ => (.error TourError.networkError : Except TourError Unit))).2.2.2.2
      (fun n _ => ⟨TourError.networkError, rfl, rfl⟩)).1

/-! ## Pet-info enrichment (src/components/tour-page-content.tsx) -/

/-- The fields of a tour listing record used by the controller. -/
structure TourItem where
  contentid : String
  title : String
  contenttypeid : String
  modifiedtime : String
deriving DecidableEq, Repr

/-- The fields of a PetTourInfo record used by the pet filter (both are
optional in the source type). -/
structure PetInfo where
  chkpetleash : Option String
  chkpetsize : Option String
deriving DecidableEq, Repr

/-- A JavaScript Map from content id to PetTourInfo-or-null, modelled as an
association list in which the most recent binding shadows older ones.  An
absent key models Map.get returning undefined; a (k, none) binding models an
explicit null value (failed or empty lookup). -/
abbrev PetMap := List (String × Option PetInfo)

/-- Map.has. -/
def mapHas (m : PetMap) (k : String) : Bool :=
  m.any (fun p => p.1 == k)

/-- Map.get (none models undefined). -/
def mapGet (m : PetMap) (k : String) : Option (Option PetInfo) :=
  (m.find? (fun p => p.1 == k)).map (fun p => p.2)

/-- Map.set. -/
def mapSet (m : PetMap) (k : String) (v : Option PetInfo) : PetMap :=
  (k, v) :: m

lemma mapGet_mapSet_self (m : PetMap) (k : String) (v : Option PetInfo) :
    mapGet (mapSet m k v) k = some v := by
  simp [mapSet, mapGet, List.find?]

lemma mapGet_mapSet_ne (m : PetMap) (k k' : String) (v : Option PetInfo)
    (h : k ≠ k') : mapGet (mapSet m k' v) k = mapGet m k := by
  have hb : (k' == k) = false := by
    simp [Ne.symm h]
  simp [mapSet, mapGet, List.find?, hb]

lemma mapGet_eq_none_of_has_false (m : PetMap) (k : String)
    (h : mapHas m k = false) : mapGet m k = none := by
  unfold mapHas at h
  unfold mapGet
  rw [List.any_eq_false] at h
  rw [List.find?_eq_none.mpr (fun x hx => by simp [h x hx])]
  rfl

/-- One step of the fetch loop: the lookup result (none models the null
stored on a failed or empty lookup) is recorded for the item's id. -/
def petFetchStep (lookup : String → Option PetInfo) (m : PetMap) (i : TourItem) : PetMap :=
  mapSet m i.contentid (lookup i.contentid)

/-- One step of the final fill loop of fetchPetInfos: ids not yet in the
result map are looked up in the (updated) cache and copied over when the
cache has an entry. -/
def petMapFill (cache : PetMap) (m : PetMap) (i : TourItem) : PetMap :=
  if mapHas m i.contentid then m
  else
    match mapGet cache i.contentid with
    | some v => mapSet m i.contentid v
    | none => m

/-- One step of the all-cached early-return loop of fetchPetInfos. -/
def petMapFromCache (cache : PetMap) (m : PetMap) (i : TourItem) : PetMap :=
  match mapGet cache i.contentid with
  | some v => mapSet m i.contentid v
  | none => m

/-- Shallow embedding of fetchPetInfos.  lookup models the per-id remote
enrichment call collapsed to its stored outcome (a PetTourInfo or null);
cache models the module-level petInfoCache.  Returns the petInfoMap handed
back to the caller, the updated cache, and the list of ids for which a
remote lookup was actually issued (the first 20 uncached items). -/
def fetchPetInfos (lookup : String → Option PetInfo) (cache : PetMap)
    (items : List TourItem) : PetMap × PetMap × List String :=
  let itemsToFetch := items.filter (fun i => !(mapHas cache i.contentid))
  if itemsToFetch.isEmpty then
    (items.foldl (petMapFromCache cache) [], cache, [])
  else
    let fetched := itemsToFetch.take 20
    let cache1 := fetched.foldl (petFetchStep lookup) cache
    let m1 := fetched.foldl (petFetchStep lookup) []
    let m2 := items.foldl (petMapFill cache1) m1
    (m2, cache1, fetched.map (fun i => i.contentid))

/-- The per-item predicate of filterByPet: items with no map entry or a null
entry are dropped; otherwise accompaniment must be allowed and, when size
tags are set, the size field must contain one of them as a substring. -/
def isPetFriendlyInfo (p : PetInfo) : Bool :=
  p.chkpetleash == some "가능" || p.chkpetleash == some "Y" ||
    p.chkpetleash == some "yes"

/-- JavaScript String.includes. -/
def strIncludes (hay needle : String) : Bool :=
  needle == "" || decide (2 ≤ (hay.splitOn needle).length)

def petPred (petInfoMap : PetMap) (petSizes : Option (List String))
    (item : TourItem) : Bool :=
  match mapGet petInfoMap item.contentid with
  | none => false
  | some none => false
  | some (some petInfo) =>
    if !(isPetFriendlyInfo petInfo) then false
    else
      match petSizes with
      | some sizes =>
        if 0 < sizes.length then
          sizes.any (fun size => strIncludes (petInfo.chkpetsize.getD "") size)
        else true
      | none => true

/-- Shallow embedding of filterByPet. -/
def filterByPet (items : List TourItem) (petInfoMap : PetMap)
    (petFriendly : Bool) (petSizes : Option (List String)) : List TourItem :=
  if !petFriendly then items else items.filter (petPred petInfoMap petSizes)

lemma foldl_petFetchStep_get_of_not_mem (lookup : String → Option PetInfo)
    (k : String) :
    ∀ (l : List TourItem) (m : PetMap), k ∉ l.map (fun i => i.contentid) →
      mapGet (l.foldl (petFetchStep lookup) m) k = mapGet m k := by
  intro l
  induction l with
  | nil =>
    intro m _
    rfl
  | cons i t ih =>
    intro m hk
    rw [List.map_cons, List.mem_cons] at hk
    push_neg at hk
    rw [List.foldl_cons, ih _ hk.2]
    exact mapGet_mapSet_ne m k i.contentid _ hk.1

lemma foldl_petMapFill_get_none (cache : PetMap) (k : String)
    (hc : mapGet cache k = none) :
    ∀ (l : List TourItem) (m : PetMap), mapGet m k = none →
      mapGet (l.foldl (petMapFill cache) m) k = none := by
  intro l
  induction l with
  | nil =>
    intro m hm
    exact hm
  | cons i t ih =>
    intro m hm
    rw [List.foldl_cons]
    refine ih _ ?_
    unfold petMapFill
    by_cases hb : mapHas m i.contentid
    · rw [if_pos hb]
      exact hm
    · rw [if_neg hb]
      by_cases hk : k = i.contentid
      · rw [← hk, hc]
        exact hm
      · cases hcv : mapGet cache i.contentid with
        | none => exact hm
        | some v => rw [mapGet_mapSet_ne m k i.contentid v hk]; exact hm

lemma foldl_petMapFromCache_get_none (cache : PetMap) (k : String)
    (hc : mapGet cache k = none) :
    ∀ (l : List TourItem) (m : PetMap), mapGet m k = none →
      mapGet (l.foldl (petMapFromCache cache) m) k = none := by
  intro l
  induction l with
  | nil =>
    intro m hm
    exact hm
  | cons i t ih =>
    intro m hm
    rw [List.foldl_cons]
    refine ih _ ?_
    unfold petMapFromCache
    by_cases hk : k = i.contentid
    · rw [← hk, hc]
      exact hm
    · cases hcv : mapGet cache i.contentid with
      | none => exact hm
      | some v => rw [mapGet_mapSet_ne m k i.contentid v hk]; exact hm

/-- C7: the enrichment lookups issued by fetchPetInfos are exactly the ids of
the first 20 items whose id is not already cached; hence at most 20 lookups
are issued per call, and only for ids absent from the cache. -/
theorem C7_enrichment_fanout_cap (lookup : String → Option PetInfo)
    (cache : PetMap) (items : List TourItem) :
    (fetchPetInfos lookup cache items).2.2 =
      ((items.filter (fun i => !(mapHas cache i.contentid))).take 20).map
        (fun i => i.contentid) ∧
    (fetchPetInfos lookup cache items).2.2.length ≤ 20 ∧
    (∀ id, id ∈ (fetchPetInfos lookup cache items).2.2 →
      mapHas cache id = false) := by
  have hiss : (fetchPetInfos lookup cache items).2.2 =
      ((items.filter (fun i => !(mapHas cache i.contentid))).take 20).map
        (fun i => i.contentid) := by
    unfold fetchPetInfos
    by_cases h : (items.filter (fun i => !(mapHas cache i.contentid))).isEmpty
    · rw [if_pos h]
      rw [List.isEmpty_iff] at h
      rw [h]
      rfl
    · rw [if_neg h]
  refine ⟨hiss, ?_, ?_⟩
  · rw [hiss, List.length_map, List.length_take]
    exact min_le_left _ _
  · intro id hid
    rw [hiss] at hid
    rw [List.mem_map] at hid
    obtain ⟨i, hi, rfl⟩ := hid
    have hi' := List.mem_of_mem_take hi
    rw [List.mem_filter] at hi'
    simpa using hi'.2

/-- Items used by the C7 witness: a batch of 25 records with pairwise
distinct content ids. -/
def mkTourItem (n : Nat) : TourItem :=
  ⟨String.mk (List.replicate n 'a'), "", "", ""⟩

def items25 : List TourItem :=
  (List.range 25).map mkTourItem

/-- Witness for C7: a batch of 25 uncached items issues exactly 20 lookups. -/
theorem C7_enrichment_fanout_cap_witness :
    (fetchPetInfos (fun _ => none) [] items25).2.2.length = 20 ∧
    (fetchPetInfos (fun _ => none) [] items25).2.2.length ≤ 20 ∧
    (∀ id, id ∈ (fetchPetInfos (fun _ => none) [] items25).2.2 →
      mapHas [] id = false) :=
  ⟨by decide,
    (C7_enrichment_fanout_cap (fun _ => none) [] items25).2.1,
    (C7_enrichment_fanout_cap (fun _ => none) [] items25).2.2⟩

/-- C10: with the pet filter enabled, any item whose id has no entry in the
map produced by fetchPetInfos is excluded from the filtered list; and an
uncached item for which no lookup was issued (in particular one beyond the
20-lookup cap) gets no entry in that map — regardless of what an actual
lookup would have returned — and is therefore dropped. -/
theorem C10_unfetched_items_dropped (lookup : String → Option PetInfo)
    (cache : PetMap) (items : List TourItem) (petSizes : Option (List String)) :
    (∀ item, mapGet (fetchPetInfos lookup cache items).1 item.contentid = none →
      item ∉ filterByPet items (fetchPetInfos lookup cache items).1 true petSizes) ∧
    (∀ item, item ∈ items → mapHas cache item.contentid = false →
      item.contentid ∉ (fetchPetInfos lookup cache items).2.2 →
      mapGet (fetchPetInfos lookup cache items).1 item.contentid = none ∧
      item ∉ filterByPet items (fetchPetInfos lookup cache items).1 true petSizes) := by
  have hdrop : ∀ (m : PetMap) (item : TourItem),
      mapGet m item.contentid = none →
      item ∉ filterByPet items m true petSizes := by
    intro m item hnone hmem
    unfold filterByPet at hmem
    rw [if_neg (by simp)] at hmem
    rw [List.mem_filter] at hmem
    have hp := hmem.2
    unfold petPred at hp
    rw [hnone] at hp
    exact Bool.noConfusion hp
  refine ⟨fun item h => hdrop _ item h, fun item hmem hcache hniss => ?_⟩
  have hget : mapGet (fetchPetInfos lookup cache items).1 item.contentid = none := by
    have hcnone : mapGet cache item.contentid = none :=
      mapGet_eq_none_of_has_false cache item.contentid hcache
    unfold fetchPetInfos
    unfold fetchPetInfos at hniss
    by_cases h : (items.filter (fun i => !(mapHas cache i.contentid))).isEmpty
    · rw [if_pos h]
      exact foldl_petMapFromCache_get_none cache item.contentid hcnone items [] rfl
    · rw [if_neg h]
      rw [if_neg h] at hniss
      have hnmem : item.contentid ∉
          ((items.filter (fun i => !(mapHas cache i.contentid))).take 20).map
            (fun i => i.contentid) := hniss
      have hc1 : mapGet
          (((items.filter (fun i => !(mapHas cache i.contentid))).take 20).foldl
            (petFetchStep lookup) cache) item.contentid = none := by
        rw [foldl_petFetchStep_get_of_not_mem lookup item.contentid _ cache hnmem]
        exact hcnone
      have hm1 : mapGet
          (((items.filter (fun i => !(mapHas cache i.contentid))).take 20).foldl
            (petFetchStep lookup) []) item.contentid = none := by
        rw [foldl_petFetchStep_get_of_not_mem lookup item.contentid _ [] hnmem]
        rfl
      exact foldl_petMapFill_get_none _ item.contentid hc1 items _ hm1
  exact ⟨hget, hdrop _ item hget⟩

/-- Witness for C10: with an empty cache and 25 items, the 21st uncached item
gets no map entry and is dropped by the pet filter even though the lookup
oracle would report accompaniment allowed. -/
theorem C10_unfetched_items_dropped_witness :
    mkTourItem 24 ∈ items25 ∧
    mapHas ([] : PetMap) (mkTourItem 24).contentid = false ∧
    (mkTourItem 24).contentid ∉
      (fetchPetInfos (fun _ => some ⟨some "가능", none⟩) [] items25).2.2 ∧
    mapGet (fetchPetInfos (fun _ => some ⟨some "가능", none⟩) [] items25).1
      (mkTourItem 24).contentid = none ∧
    mkTourItem 24 ∉
      filterByPet items25
        (fetchPetInfos (fun _ => some ⟨some "가능", none⟩) [] items25).1
        true none := by
  have h1 : mkTourItem 24 ∈ items25 := by decide
  have h2 : mapHas ([] : PetMap) (mkTourItem 24).contentid = false := by decide
  have h3 : (mkTourItem 24).contentid ∉
      (fetchPetInfos (fun _ => some ⟨some "가능", none⟩) [] items25).2.2 := by decide
  have h4 := (C10_unfetched_items_dropped (fun _ => some ⟨some "가능", none⟩)
    [] items25 none).2 (mkTourItem 24) h1 h2 h3
  exact ⟨h1, h2, h3, h4.1, h4.2⟩

/-! ## Paging controller (src/components/tour-page-content.tsx)

The controller's asynchronous behaviour is modelled as an event-step machine:
a filter/search change runs the effect (dispatching an initial load unless the
loading guard skips it), a load-more click runs loadMore, and separate
resolution events apply the completion of an in-flight request.  The remote
listing service is a parameter server from request parameters to the page of
items it returns; getTime models Date parsing of modifiedtime strings and
the name comparator models the locale-aware title compare (no claim depends
on the particular order). -/

/-- PAGE_SIZE of src/lib/constants/pagination.ts. -/
def PAGE_SIZE : Nat := 20

/-- Sort modes of FilterState. -/
inductive SortMode where
  | latest
  | name
deriving DecidableEq, Repr

/-- FilterState of tour-filters.tsx (areaCode is string-or-null; petFriendly
is optional and an absent value reads as false). -/
structure FilterState where
  areaCode : Option String
  contentTypeIds : List String
  sort : SortMode
  petFriendly : Bool
  petSizes : Option (List String)
deriving DecidableEq, Repr

/-- JavaScript truthiness of a string-or-null value. -/
def truthyStr : Option String → Bool
  | some s => !(s == "")
  | none => false

/-- The parameters of one listing request (searchKeyword2 when keyword is
present, areaBasedList2 otherwise). -/
structure ServerReq where
  keyword : Option String
  areaCode : Option String
  contentTypeId : Option String
  pageNo : Nat
  numOfRows : Nat
deriving DecidableEq, Repr

/-- JavaScript String.prototype.trim: strip leading and trailing
whitespace. -/
def jsTrim (s : String) : String :=
  ⟨((s.toList.dropWhile (fun c => c.isWhitespace)).reverse.dropWhile
      (fun c => c.isWhitespace)).reverse⟩

/-- The request built by fetchToursPage for a given page: the keyword-search
endpoint with the trimmed keyword when one is present (area code passed only
when truthy), else the region-listing endpoint (area code defaulting to "1");
in both cases only the first selected category is passed. -/
def buildServerReq (filters : FilterState) (searchKeyword : String)
    (page : Nat) : ServerReq :=
  if jsTrim searchKeyword ≠ "" then
    { keyword := some (jsTrim searchKeyword)
      areaCode := if truthyStr filters.areaCode then filters.areaCode else none
      contentTypeId := filters.contentTypeIds.head?
      pageNo := page
      numOfRows := PAGE_SIZE }
  else
    { keyword := none
      areaCode := some (if truthyStr filters.areaCode then filters.areaCode.getD "" else "1")
      contentTypeId := filters.contentTypeIds.head?
      pageNo := page
      numOfRows := PAGE_SIZE }

/-- Client-side category filtering of fetchToursPage (applied whenever at
least one category is selected). -/
def catFilter (filters : FilterState) (items : List TourItem) : List TourItem :=
  if 0 < filters.contentTypeIds.length then
    items.filter (fun item => filters.contentTypeIds.contains item.contenttypeid)
  else items

/-- Stable insertion of one element with respect to a boolean comparator,
modelling the stable Array.prototype.sort. -/
def insertSorted (le : TourItem → TourItem → Bool) (x : TourItem) :
    List TourItem → List TourItem
  | [] => [x]
  | y :: ys => if le x y then x :: y :: ys else y :: insertSorted le x ys

def stableSort (le : TourItem → TourItem → Bool) (l : List TourItem) :
    List TourItem :=
  l.foldr (insertSorted le) []

/-- sortTours of tour-page-content.tsx: ascending locale compare on title for
"name", descending parsed modifiedtime for "latest". -/
def sortTours (getTime : String → Int) (tours : List TourItem)
    (sort : SortMode) : List TourItem :=
  match sort with
  | .name => stableSort (fun a b => decide (a.title ≤ b.title)) tours
  | .latest =>
    stableSort (fun a b => decide (getTime b.modifiedtime ≤ getTime a.modifiedtime)) tours

/-- The observable outcome of one fetchToursPage call: the returned items,
the value setPetInfoMap was called with (none when it was not called), the
module cache afterwards, and the enrichment lookups issued. -/
structure FetchOutcome where
  items : List TourItem
  petMapSet : Option PetMap
  cache : PetMap
  issued : List String
deriving DecidableEq, Repr

/-- Shallow embedding of fetchToursPage: request the page, filter by the
selected categories client-side, and — only when the pet filter is enabled
and this is not a load-more — fetch pet infos and apply filterByPet (a
non-load-more call without the pet filter resets the pet map). -/
def fetchToursPage (server : ServerReq → List TourItem)
    (lookup : String → Option PetInfo) (cache : PetMap)
    (filters : FilterState) (searchKeyword : String) (page : Nat)
    (isLoadMore : Bool) : FetchOutcome :=
  let items := server (buildServerReq filters searchKeyword page)
  let filteredItems := catFilter filters items
  if filters.petFriendly && !isLoadMore then
    let r := fetchPetInfos lookup cache filteredItems
    { items := filterByPet filteredItems r.1 filters.petFriendly filters.petSizes
      petMapSet := some r.1
      cache := r.2.1
      issued := r.2.2 }
  else if !isLoadMore then
    { items := filteredItems, petMapSet := some [], cache := cache, issued := [] }
  else
    { items := filteredItems, petMapSet := none, cache := cache, issued := [] }

/-- The identity of an in-flight request: the filter and search values
captured by its closure at dispatch time, and the requested page number. -/
structure InFlight where
  filters : FilterState
  searchKeyword : String
  page : Nat
deriving DecidableEq, Repr

/-- The controller state: React state (filters, keyword, tours, pageNo,
hasMore, loading flags, pet map, error), the module-level pet cache, and the
requests currently in flight.  isLoading stands for the isLoading state and
the synchronously updated isLoadingRef, which the code keeps in lock step. -/
structure CtrlState where
  filters : FilterState
  searchKeyword : String
  tours : List TourItem
  pageNo : Nat
  hasMore : Bool
  isLoading : Bool
  isLoadingMore : Bool
  petInfoMap : PetMap
  petCache : PetMap
  error : Bool
  inflightInitial : Option InFlight
  inflightMore : Option InFlight
deriving DecidableEq, Repr

/-- A filter or search change: the effect aborts abortControllerRef — whose
signal is never passed to any fetch, so the in-flight request is unaffected —
and runs fetchTours, which returns immediately when isLoadingRef is set
(leaving page, hasMore and the old in-flight request untouched) and otherwise
resets the cursor and dispatches the initial load for the new values. -/
def applyFilterChange (s : CtrlState) (f : FilterState) (kw : String) : CtrlState :=
  let s1 := { s with filters := f, searchKeyword := kw }
  if s1.isLoading then s1
  else
    { s1 with isLoading := true, error := false, pageNo := 1, hasMore := true,
              inflightInitial := some ⟨f, kw, 1⟩ }

/-- Successful completion of the in-flight initial load: its result (computed
with the filter and keyword captured at dispatch) replaces the visible list
after sorting, and hasMore is cleared when the page was short. -/
def applyResolveInitial (server : ServerReq → List TourItem)
    (lookup : String → Option PetInfo) (getTime : String → Int)
    (s : CtrlState) : CtrlState :=
  match s.inflightInitial with
  | none => s
  | some req =>
    let fr := fetchToursPage server lookup s.petCache req.filters
      req.searchKeyword req.page false
    { s with tours := sortTours getTime fr.items req.filters.sort,
             petInfoMap := fr.petMapSet.getD s.petInfoMap,
             petCache := fr.cache,
             hasMore := if fr.items.length < PAGE_SIZE then false else s.hasMore,
             isLoading := false,
             inflightInitial := none }

/-- Failed completion of the in-flight initial load (the AbortError branch is
dead code because the abort signal is never wired to the fetch). -/
def applyFailInitial (s : CtrlState) : CtrlState :=
  match s.inflightInitial with
  | none => s
  | some _ => { s with error := true, isLoading := false, inflightInitial := none }

/-- A load-more trigger: a no-op under the guard, otherwise dispatches the
next page with the current filter, keyword and cursor. -/
def applyLoadMore (s : CtrlState) : CtrlState :=
  if s.isLoading || s.isLoadingMore || !s.hasMore then s
  else
    { s with isLoadingMore := true,
             inflightMore := some ⟨s.filters, s.searchKeyword, s.pageNo + 1⟩ }

/-- Successful completion of the in-flight load-more: the sorted new items
are appended to the existing list, the cursor advances, and hasMore is
cleared when the page was short. -/
def applyResolveMore (server : ServerReq → List TourItem)
    (lookup : String → Option PetInfo) (getTime : String → Int)
    (s : CtrlState) : CtrlState :=
  match s.inflightMore with
  | none => s
  | some req =>
    let fr := fetchToursPage server lookup s.petCache req.filters
      req.searchKeyword req.page true
    { s with tours := s.tours ++ sortTours getTime fr.items req.filters.sort,
             pageNo := req.page,
             petInfoMap := fr.petMapSet.getD s.petInfoMap,
             petCache := fr.cache,
             hasMore := if fr.items.length < PAGE_SIZE then false else s.hasMore,
             isLoadingMore := false,
             inflightMore := none }

/-- Failed completion of the in-flight load-more: hasMore is preserved so the
user can retry. -/
def applyFailMore (s : CtrlState) : CtrlState :=
  match s.inflightMore with
  | none => s
  | some _ => { s with isLoadingMore := false, inflightMore := none }

/-- The observable events of the controller. -/
inductive Event where
  | filterChange (f : FilterState) (kw : String)
  | loadMoreClick
  | resolveInitial
  | failInitial
  | resolveMore
  | failMore
deriving DecidableEq, Repr

def step (server : ServerReq → List TourItem)
    (lookup : String → Option PetInfo) (getTime : String → Int)
    (s : CtrlState) : Event → CtrlState
  | .filterChange f kw => applyFilterChange s f kw
  | .loadMoreClick => applyLoadMore s
  | .resolveInitial => applyResolveInitial server lookup getTime s
  | .failInitial => applyFailInitial s
  | .resolveMore => applyResolveMore server lookup getTime s
  | .failMore => applyFailMore s

def run (server : ServerReq → List TourItem)
    (lookup : String → Option PetInfo) (getTime : String → Int)
    (s0 : CtrlState) (events : List Event) : CtrlState :=
  events.foldl (step server lookup getTime) s0

/-- The initial filter state of TourPageContent. -/
def initialFilters : FilterState :=
  ⟨some "1", [], .latest, false, none⟩

/-- The component state at mount, before the mount effect (which is the first
filterChange event) runs. -/
def initState (initialTours : List TourItem) : CtrlState :=
  { filters := initialFilters, searchKeyword := "", tours := initialTours,
    pageNo := 1, hasMore := true, isLoading := false, isLoadingMore := false,
    petInfoMap := [], petCache := [], error := false,
    inflightInitial := none, inflightMore := none }

lemma insertSorted_perm (le : TourItem → TourItem → Bool) (x : TourItem) :
    ∀ l : List TourItem, (insertSorted le x l).Perm (x :: l) := by
  intro l
  induction l with
  | nil => exact List.Perm.refl _
  | cons y ys ih =>
    unfold insertSorted
    by_cases h : le x y = true
    · rw [if_pos h]
    · rw [if_neg h]
      exact (List.Perm.cons y ih).trans (List.Perm.swap x y ys)

lemma stableSort_perm (le : TourItem → TourItem → Bool) :
    ∀ l : List TourItem, (stableSort le l).Perm l := by
  intro l
  induction l with
  | nil => exact List.Perm.refl _
  | cons x t ih =>
    unfold stableSort
    rw [List.foldr_cons]
    exact (insertSorted_perm le x _).trans (List.Perm.cons x ih)

lemma sortTours_perm (getTime : String → Int) (l : List TourItem)
    (srt : SortMode) : (sortTours getTime l srt).Perm l := by
  cases srt <;> exact stableSort_perm _ l

lemma fetchToursPage_loadMore (server : ServerReq → List TourItem)
    (lookup : String → Option PetInfo) (cache : PetMap)
    (filters : FilterState) (searchKeyword : String) (page : Nat) :
    fetchToursPage server lookup cache filters searchKeyword page true =
      { items := catFilter filters (server (buildServerReq filters searchKeyword page)),
        petMapSet := none, cache := cache, issued := [] } := by
  unfold fetchToursPage
  rw [if_neg (by simp), if_neg (by simp)]

/-- C4: a load-more trigger while hasMore is false, or while an initial load
or another load-more is in flight, leaves the controller state unchanged —
in particular the visible list, page number and hasMore flag are untouched
and no request is dispatched. -/
theorem C4_loadMore_noop (s : CtrlState)
    (h : s.isLoading = true ∨ s.isLoadingMore = true ∨ s.hasMore = false) :
    applyLoadMore s = s := by
  unfold applyLoadMore
  rw [if_pos]
  rcases h with h | h | h <;> simp [h]

/-- Witness for C4 at a concrete state with hasMore cleared. -/
theorem C4_loadMore_noop_witness :
    ((initState []).isLoading = true ∨ (initState []).isLoadingMore = true ∨
      { initState [] with hasMore := false }.hasMore = false) ∧
    applyLoadMore { initState [] with hasMore := false } =
      { initState [] with hasMore := false } :=
  ⟨Or.inr (Or.inr rfl),
    C4_loadMore_noop { initState [] with hasMore := false } (Or.inr (Or.inr rfl))⟩

/-- C3: at the successful completion of a page load that found hasMore still
true — it is set true at every initial-load dispatch and required true at
every load-more dispatch — the new hasMore is false exactly when the page
returned by fetchToursPage (the client-side filtered page) is shorter than
PAGE_SIZE = 20, and stays true otherwise. -/
theorem C3_hasMore_exact (server : ServerReq → List TourItem)
    (lookup : String → Option PetInfo) (getTime : String → Int)
    (s : CtrlState) (hm : s.hasMore = true) :
    (∀ req, s.inflightInitial = some req →
      ((applyResolveInitial server lookup getTime s).hasMore = false ↔
        (fetchToursPage server lookup s.petCache req.filters req.searchKeyword
          req.page false).items.length < PAGE_SIZE)) ∧
    (∀ req, s.inflightMore = some req →
      ((applyResolveMore server lookup getTime s).hasMore = false ↔
        (fetchToursPage server lookup s.petCache req.filters req.searchKeyword
          req.page true).items.length < PAGE_SIZE)) := by
  constructor
  · intro req hreq
    unfold applyResolveInitial
    rw [hreq]
    by_cases hc : (fetchToursPage server lookup s.petCache req.filters
        req.searchKeyword req.page false).items.length < PAGE_SIZE
    · simp [hc]
    · simp [hc, hm]
  · intro req hreq
    unfold applyResolveMore
    rw [hreq]
    by_cases hc : (fetchToursPage server lookup s.petCache req.filters
        req.searchKeyword req.page true).items.length < PAGE_SIZE
    · simp [hc]
    · simp [hc, hm]

/-- Witness for C3: an empty page (shorter than 20) clears hasMore and a full
20-item page leaves it true. -/
theorem C3_hasMore_exact_witness :
    (applyResolveInitial (fun _ => []) (fun _ => none) (fun _ => 0)
      { initState [] with inflightInitial := some ⟨initialFilters, "", 1⟩,
                          isLoading := true }).hasMore = false ∧
    (applyResolveMore (fun _ => (List.range 20).map mkTourItem) (fun _ => none)
      (fun _ => 0)
      { initState [] with inflightMore := some ⟨initialFilters, "", 2⟩,
                          isLoadingMore := true }).hasMore = true := by
  constructor
  · exact ((C3_hasMore_exact (fun _ => []) (fun _ => none) (fun _ => 0)
      { initState [] with inflightInitial := some ⟨initialFilters, "", 1⟩,
                          isLoading := true } rfl).1 ⟨initialFilters, "", 1⟩ rfl).mpr
      (by decide)
  · have h := ((C3_hasMore_exact (fun _ => (List.range 20).map mkTourItem)
      (fun _ => none) (fun _ => 0)
      { initState [] with inflightMore := some ⟨initialFilters, "", 2⟩,
                          isLoadingMore := true } rfl).2 ⟨initialFilters, "", 2⟩ rfl)
    have hfull : ¬((fetchToursPage (fun _ => (List.range 20).map mkTourItem)
        (fun _ => none) (initState []).petCache initialFilters "" 2 true).items.length
          < PAGE_SIZE) := by decide
    cases hb : (applyResolveMore (fun _ => (List.range 20).map mkTourItem)
        (fun _ => none) (fun _ => 0)
        { initState [] with inflightMore := some ⟨initialFilters, "", 2⟩,
                            isLoadingMore := true }).hasMore
    · exact absurd (h.mp hb) hfull
    · rfl

/-- C5: at the successful completion of a load-more, the previously visible
list is preserved unchanged as a prefix with the sorted new page appended
after it, and the pet filter is not re-applied: the load-more fetch returns
the category-filtered page untouched (whatever the pet filter setting),
issues no enrichment lookups, and does not touch the pet map or cache. -/
theorem C5_append_no_refilter (server : ServerReq → List TourItem)
    (lookup : String → Option PetInfo) (getTime : String → Int)
    (s : CtrlState) (req : InFlight) (hreq : s.inflightMore = some req) :
    (applyResolveMore server lookup getTime s).tours =
      s.tours ++ sortTours getTime
        (fetchToursPage server lookup s.petCache req.filters req.searchKeyword
          req.page true).items req.filters.sort ∧
    (fetchToursPage server lookup s.petCache req.filters req.searchKeyword
      req.page true).items =
      catFilter req.filters (server (buildServerReq req.filters req.searchKeyword req.page)) ∧
    (fetchToursPage server lookup s.petCache req.filters req.searchKeyword
      req.page true).issued = [] ∧
    (fetchToursPage server lookup s.petCache req.filters req.searchKeyword
      req.page true).petMapSet = none ∧
    (fetchToursPage server lookup s.petCache req.filters req.searchKeyword
      req.page true).cache = s.petCache ∧
    (applyResolveMore server lookup getTime s).petInfoMap = s.petInfoMap := by
  have hf := fetchToursPage_loadMore server lookup s.petCache req.filters
    req.searchKeyword req.page
  refine ⟨?_, by rw [hf], by rw [hf], by rw [hf], by rw [hf], ?_⟩
  · unfold applyResolveMore
    rw [hreq]
  · unfold applyResolveMore
    rw [hreq]
    simp [hf]

/-- Witness for C5 at a concrete load-more resolution. -/
theorem C5_append_no_refilter_witness :
    (applyResolveMore (fun _ => [mkTourItem 3]) (fun _ => none) (fun _ => 0)
      { initState [mkTourItem 0] with
          inflightMore := some ⟨initialFilters, "", 2⟩,
          isLoadingMore := true }).tours =
      [mkTourItem 0] ++ sortTours (fun _ => 0)
        (fetchToursPage (fun _ => [mkTourItem 3]) (fun _ => none) []
          initialFilters "" 2 true).items initialFilters.sort ∧
    (fetchToursPage (fun _ => [mkTourItem 3]) (fun _ => none) []
      initialFilters "" 2 true).issued = [] :=
  ⟨(C5_append_no_refilter (fun _ => [mkTourItem 3]) (fun _ => none) (fun _ => 0)
      { initState [mkTourItem 0] with
          inflightMore := some ⟨initialFilters, "", 2⟩,
          isLoadingMore := true } ⟨initialFilters, "", 2⟩ rfl).1,
    (C5_append_no_refilter (fun _ => [mkTourItem 3]) (fun _ => none) (fun _ => 0)
      { initState [mkTourItem 0] with
          inflightMore := some ⟨initialFilters, "", 2⟩,
          isLoadingMore := true } ⟨initialFilters, "", 2⟩ rfl).2.2.1⟩

/-- A full 20-item page; a remote source returning it for every request makes
consecutive pages overlap completely. -/
def dupPage : List TourItem :=
  (List.range 20).map mkTourItem

def serverDup : ServerReq → List TourItem := fun _ => dupPage

def eventsDup : List Event :=
  [.filterChange initialFilters "", .resolveInitial, .loadMoreClick, .resolveMore]

/-- Counterexample to C6: the controller never deduplicates, so when the
remote source returns overlapping pages (here the same full page for page 1
and page 2), the settled visible list contains the same contentid twice. -/
theorem C6_duplicates_counterexample :
    (run serverDup (fun _ => none) (fun _ => 0) (initState []) eventsDup).inflightInitial
        = none ∧
    (run serverDup (fun _ => none) (fun _ => 0) (initState []) eventsDup).inflightMore
        = none ∧
    ¬((run serverDup (fun _ => none) (fun _ => 0) (initState [])
        eventsDup).tours.map (fun i => i.contentid)).Nodup := by
  refine ⟨rfl, rfl, ?_⟩
  decide

/-- C6 amended: the controller performs no deduplication — the visible list
after a successful load-more is the old list with the sorted new page
appended — so it has at most one record per contentid provided the previous
list was duplicate-free and the newly fetched page neither contains an id
twice nor shares an id with the previous list. -/
theorem C6_nodup_when_pages_disjoint (server : ServerReq → List TourItem)
    (lookup : String → Option PetInfo) (getTime : String → Int)
    (s : CtrlState) (req : InFlight) (hreq : s.inflightMore = some req)
    (h1 : (s.tours.map (fun i => i.contentid)).Nodup)
    (h2 : ((fetchToursPage server lookup s.petCache req.filters req.searchKeyword
      req.page true).items.map (fun i => i.contentid)).Nodup)
    (h3 : ∀ id, id ∈ s.tours.map (fun i => i.contentid) →
      id ∉ (fetchToursPage server lookup s.petCache req.filters req.searchKeyword
        req.page true).items.map (fun i => i.contentid)) :
    ((applyResolveMore server lookup getTime s).tours.map
      (fun i => i.contentid)).Nodup := by
  have htours : (applyResolveMore server lookup getTime s).tours =
      s.tours ++ sortTours getTime
        (fetchToursPage server lookup s.petCache req.filters req.searchKeyword
          req.page true).items req.filters.sort := by
    unfold applyResolveMore
    rw [hreq]
  rw [htours, List.map_append]
  have hperm : ((sortTours getTime
      (fetchToursPage server lookup s.petCache req.filters req.searchKeyword
        req.page true).items req.filters.sort).map (fun i => i.contentid)).Perm
      ((fetchToursPage server lookup s.petCache req.filters req.searchKeyword
        req.page true).items.map (fun i => i.contentid)) :=
    (sortTours_perm getTime _ req.filters.sort).map _
  refine List.Nodup.append h1 (hperm.nodup_iff.mpr h2) ?_
  intro id hid1 hid2
  exact h3 id hid1 (hperm.mem_iff.mp hid2)

/-- Witness for the amended C6 at a concrete disjoint load-more. -/
theorem C6_nodup_when_pages_disjoint_witness :
    ((applyResolveMore (fun _ => [mkTourItem 3]) (fun _ => none) (fun _ => 0)
      { initState [mkTourItem 0] with
          inflightMore := some ⟨initialFilters, "", 2⟩,
          isLoadingMore := true }).tours.map (fun i => i.contentid)).Nodup :=
  C6_nodup_when_pages_disjoint (fun _ => [mkTourItem 3]) (fun _ => none)
    (fun _ => 0)
    { initState [mkTourItem 0] with
        inflightMore := some ⟨initialFilters, "", 2⟩,
        isLoadingMore := true } ⟨initialFilters, "", 2⟩ rfl
    (by decide) (by decide) (by decide)

/-- A second filter state (region "2") superseding the initial one. -/
def filtersB : FilterState :=
  ⟨some "2", [], .latest, false, none⟩

/-- A remote source whose answer depends on the requested region, so the two
filter states have observably different results. -/
def serverC1 : ServerReq → List TourItem := fun req =>
  if req.areaCode = some "1" then [mkTourItem 1] else [mkTourItem 2]

/-- The C1 failing interleaving: the mount effect dispatches the initial load
for the default filter, the user changes the filter while it is in flight,
and then the superseded request resolves. -/
def eventsC1 : List Event :=
  [.filterChange initialFilters "", .filterChange filtersB "", .resolveInitial]

def staleFinal : CtrlState :=
  run serverC1 (fun _ => none) (fun _ => 0) (initState []) eventsC1

/-- C1 fails on the code: changing the filter while the initial load is in
flight leaves the old request unaffected (the abort signal is never wired to
the fetch) and the loading guard skips dispatching a load for the new filter;
when all requests settle, the visible list holds the superseded filter's
results and not the latest filter's. -/
theorem C1_stale_overwrite_code_bug :
    staleFinal.filters = filtersB ∧
    staleFinal.inflightInitial = none ∧
    staleFinal.inflightMore = none ∧
    staleFinal.isLoading = false ∧
    staleFinal.isLoadingMore = false ∧
    staleFinal.tours = [mkTourItem 1] ∧
    sortTours (fun _ => 0)
      (fetchToursPage serverC1 (fun _ => none) staleFinal.petCache filtersB ""
        1 false).items filtersB.sort = [mkTourItem 2] ∧
    staleFinal.tours ≠ [mkTourItem 2] := by
  decide

end TourApp
